import Mathlib

/-!
# Formal model of the dashboard analysis-orchestration state machine

Shallow embedding of the client-side orchestration logic of the actuarial
dashboard (the `Dashboard` component): tab gating, the scenario config,
dataset import, the four per-analysis caches (projection data, Monte Carlo,
ML risk segmentation, report), the auto-fetch effect on tab switch, and the
`runAll` action.

Asynchronous `fetch` calls are modelled in two phases: a *start* step that
records a pending request (with the request body computed at start time, as
the source does) and a *resolve* step that runs the continuation after
`await` with an environment-chosen response.  Pending requests carry a ghost
identifier so that out-of-order completions can be expressed; the source
itself has no such token, and every completion runs its continuation
unconditionally, which the model reproduces.

Numeric JSON values are modelled as rationals (`ℚ`); display-only string
formatting (`toFixed`, `toLocaleString`) is elided, raw values are kept.
-/

/-- Tab identifiers, source `type TabId`.  `import` is a Lean keyword, so the
first tab is named `importTab`; its source string is `'import'`. -/
inductive TabId where
  | importTab
  | overview
  | solvency
  | risk
  | actuary
  | reports
  | config
deriving DecidableEq

/-- Scenario configuration, source `DEFAULT_CONFIG` shape: four rate fields,
a projection horizon and a population size. -/
structure ScenarioConfig where
  wage_inflation : ℚ
  medical_inflation : ℚ
  investment_return_rate : ℚ
  admin_expense_pct : ℚ
  projection_years : Nat
  population_size : Nat
deriving DecidableEq

/-- Source `DEFAULT_CONFIG`. -/
def DEFAULT_CONFIG : ScenarioConfig :=
  { wage_inflation := 7/100, medical_inflation := 12/100
    investment_return_rate := 10/100, admin_expense_pct := 4/100
    projection_years := 10, population_size := 1000 }

/-- `statistics.gender_split` of a dataset response. -/
structure GenderSplit where
  Male : Nat
  Female : Nat
deriving DecidableEq

/-- Dataset summary statistics (`result.statistics`). -/
structure DataStats where
  avg_age : ℚ
  avg_wage : ℚ
  avg_cost : ℚ
  gender_split : GenderSplit
deriving DecidableEq

/-- One preview row; the seven required CSV columns. -/
structure PersonRow where
  Age : Nat
  Gender : String
  EmploymentStatus : String
  MonthlyWage : ℚ
  SpouseInSystem : Bool
  ChildrenCount : Nat
  EstimatedAnnualCost : ℚ
deriving DecidableEq

/-- Successful `/sample-data` or `/upload` response: `{ rows, statistics, sample }`. -/
structure SampleResp where
  rows : Nat
  statistics : DataStats
  sample : List PersonRow
deriving DecidableEq

/-- One entry of `result.projections` from `/simulate`. -/
structure Projection where
  Year : Nat
  Total_Revenue : ℚ
  Total_Expenditure : ℚ
  Reserve_Fund : ℚ
  Risk_Flags : List String
deriving DecidableEq

/-- One entry of the `data` state, mapped from a `Projection` in
`runSimulation`: `{ name: Y<year>, revenue, expenditure, reserve }`. -/
structure ProjPoint where
  name : String
  revenue : ℚ
  expenditure : ℚ
  reserve : ℚ
deriving DecidableEq

/-- The `metrics` state.  The source stores formatted strings
(`(x/1e9).toFixed(1)+"B"` etc.) with `"—"` placeholders; the model keeps the
raw values, with `none` for the placeholders. -/
structure Metrics where
  reserve : Option ℚ
  solvency : Option ℚ
  riskCount : Nat
deriving DecidableEq

/-- `/monte-carlo` response statistics. -/
structure McStatistics where
  mean_reserve : ℚ
  std_reserve : ℚ
  median_reserve : ℚ
  p5_reserve : ℚ
  p25_reserve : ℚ
  p95_reserve : ℚ
  prob_deficit : ℚ
  n_simulations : Nat
deriving DecidableEq

/-- `/monte-carlo` response: `{ statistics }`. -/
structure McResp where
  statistics : McStatistics
deriving DecidableEq

/-- `insights` of the `/ml/analysis` response. -/
structure MlInsights where
  high_risk_count : Nat
  high_risk_threshold : ℚ
  avg_cost_by_segment : List (String × ℚ)
  segment_severity : List (String × ℚ)
  risk_distribution : List (String × Nat)
deriving DecidableEq

/-- `/ml/analysis` response: `{ ml_status, insights }`. -/
structure MlResp where
  ml_status : String
  insights : MlInsights
deriving DecidableEq

/-- `executive_summary` of the `/report` response. -/
structure ExecSummary where
  assessment_period : String
  population_covered : Nat
  final_solvency_r : ℚ
  final_reserve_fund_egp : ℚ
  compliance_status : String
  total_risk_flags : Nat
deriving DecidableEq

/-- One row of `financial_projections` in the `/report` response. -/
structure FinProjection where
  year : Nat
  total_revenue : ℚ
  total_expenditure : ℚ
  reserve_fund : ℚ
  solvency_r : ℚ
  risk_flags : List String
deriving DecidableEq

/-- `/report` response document.  Fields are stored whole by the dashboard
(`setReport(await res.json())`) and only read by the rendering/export layer. -/
structure ReportResp where
  report_title : String
  legal_reference : String
  report_version : String
  executive_summary : ExecSummary
  assumptions : List (String × String)
  financial_projections : List FinProjection
  narrative_explanation : String
  agentic_audit : Option String
  recommendations : List String
deriving DecidableEq

/-- Outcome of the `/upload` fetch as seen by `handleFileUpload`:
a success body, a non-ok HTTP response with a JSON error body
(`{ detail }`, possibly absent), or a transport failure with a thrown
message. -/
inductive UploadOutcome where
  | ok (r : SampleResp)
  | httpErr (detail : Option String)
  | netErr (msg : String)

/-- The full component state of `Dashboard`, one field per `useState` hook,
plus the ghost bookkeeping for in-flight requests: `pendingSim`, `pendingMC`,
`pendingML`, `pendingReport` hold (id, request body) pairs for fetches that
have been issued but not yet settled; `nextId` numbers requests in issue
order; the `*Requests` counters count fetches issued (ghost, for stating
"at most one request" properties). -/
structure DashState where
  activeTab : TabId
  config : ScenarioConfig
  dataLoaded : Bool
  dataStats : Option DataStats
  dataSample : List PersonRow
  data : List ProjPoint
  loading : Bool
  error : Option String
  apiOnline : Bool
  metrics : Metrics
  mcData : Option McResp
  mcLoading : Bool
  mlData : Option MlResp
  mlLoading : Bool
  report : Option ReportResp
  reportLoading : Bool
  pendingSim : List (Nat × ScenarioConfig)
  pendingMC : List (Nat × ScenarioConfig)
  pendingML : List (Nat × Nat)
  pendingReport : List (Nat × ScenarioConfig)
  nextId : Nat
  simRequests : Nat
  mcRequests : Nat
  mlRequests : Nat
  reportRequests : Nat
deriving DecidableEq

/-- Initial state: the `useState` initializers.  `activeTab = 'import'`,
config = defaults, nothing loaded, metrics placeholders, all caches null. -/
def initState : DashState :=
  { activeTab := .importTab, config := DEFAULT_CONFIG
    dataLoaded := false, dataStats := none, dataSample := []
    data := [], loading := false, error := none, apiOnline := false
    metrics := { reserve := none, solvency := none, riskCount := 0 }
    mcData := none, mcLoading := false
    mlData := none, mlLoading := false
    report := none, reportLoading := false
    pendingSim := [], pendingMC := [], pendingML := [], pendingReport := []
    nextId := 0
    simRequests := 0, mcRequests := 0, mlRequests := 0, reportRequests := 0 }

/-! ## Fetch starts (the synchronous prefix of each async handler) -/

/-- `runSimulation` up to its `await`: `setLoading(true); setError(null)` and
issue `POST /simulate` with body `cfg = config`. -/
def runSimulation (s : DashState) : DashState :=
  { s with loading := true, error := none
           pendingSim := s.pendingSim ++ [(s.nextId, s.config)]
           nextId := s.nextId + 1, simRequests := s.simRequests + 1 }

/-- The `/monte-carlo` request body:
`JSON.stringify({ ...config, population_size: 500 })` — the spread of the
current config with `population_size` overridden by the literal `500`. -/
def mcRequestBody (c : ScenarioConfig) : ScenarioConfig :=
  { c with population_size := 500 }

/-- `runMonteCarlo` up to its `await`: `setMcLoading(true)` and issue
`POST /monte-carlo` with `mcRequestBody config`. -/
def runMonteCarlo (s : DashState) : DashState :=
  { s with mcLoading := true
           pendingMC := s.pendingMC ++ [(s.nextId, mcRequestBody s.config)]
           nextId := s.nextId + 1, mcRequests := s.mcRequests + 1 }

/-- `runML` up to its `await`: `setMlLoading(true)` and issue
`POST /ml/analysis?population_size=<config.population_size>`. -/
def runML (s : DashState) : DashState :=
  { s with mlLoading := true
           pendingML := s.pendingML ++ [(s.nextId, s.config.population_size)]
           nextId := s.nextId + 1, mlRequests := s.mlRequests + 1 }

/-- `runReport` up to its `await`: `setReportLoading(true)` and issue
`POST /report` with body `config`. -/
def runReport (s : DashState) : DashState :=
  { s with reportLoading := true
           pendingReport := s.pendingReport ++ [(s.nextId, s.config)]
           nextId := s.nextId + 1, reportRequests := s.reportRequests + 1 }

/-! ## The auto-fetch effect and tab switching -/

/-- First statement of the auto-fetch effect:
`if (activeTab === 'overview' && data.length === 0 && dataLoaded) runSimulation()`. -/
def effOverview (s : DashState) : DashState :=
  if s.activeTab = .overview ∧ s.data = [] ∧ s.dataLoaded then runSimulation s else s

/-- Second statement:
`if (activeTab === 'solvency' && !mcData && dataLoaded) runMonteCarlo()`. -/
def effSolvency (s : DashState) : DashState :=
  if s.activeTab = .solvency ∧ s.mcData = none ∧ s.dataLoaded then runMonteCarlo s else s

/-- Third statement:
`if (activeTab === 'risk' && !mlData && dataLoaded) runML()`. -/
def effRisk (s : DashState) : DashState :=
  if s.activeTab = .risk ∧ s.mlData = none ∧ s.dataLoaded then runML s else s

/-- Fourth statement:
`if (activeTab === 'reports' && !report && dataLoaded) runReport()`. -/
def effReports (s : DashState) : DashState :=
  if s.activeTab = .reports ∧ s.report = none ∧ s.dataLoaded then runReport s else s

/-- The body of the `useEffect` with dependency `[activeTab]` ("Auto-fetch on
tab switch"): the four guarded fetch starts in source order.  Each guard
tests the *payload* slot (`data.length === 0`, `!mcData`, `!mlData`,
`!report`), not the loading flag. -/
def autoFetchEffect (s : DashState) : DashState :=
  effReports (effRisk (effSolvency (effOverview s)))

/-- `setActiveTab(v)` followed by React committing and re-running the
`[activeTab]` effect.  When `v` equals the current value the state is
unchanged and the effect does not re-fire (unchanged dependency). -/
def setActiveTab (s : DashState) (v : TabId) : DashState :=
  if v = s.activeTab then s else autoFetchEffect { s with activeTab := v }

/-- The sidebar gating predicate, from `tabs.map`:
`disabled = tab.id !== 'import' && tab.id !== 'config' && !dataLoaded`. -/
def tabDisabled (s : DashState) (v : TabId) : Bool :=
  v ≠ .importTab && v ≠ .config && !s.dataLoaded

/-- A sidebar tab click: `onClick={() => !disabled && setActiveTab(tab.id)}`. -/
def clickTab (s : DashState) (v : TabId) : DashState :=
  if tabDisabled s v then s else setActiveTab s v

/-- `runAll`: clear the four caches
(`setMcData(null); setMlData(null); setReport(null); setData([])`),
start `runSimulation()`, then `setActiveTab('overview')` (which, once the
batch commits, re-runs the auto-fetch effect if the tab changed). -/
def runAll (s : DashState) : DashState :=
  let s1 := { s with mcData := none, mlData := none, report := none, data := [] }
  let s2 := runSimulation s1
  setActiveTab s2 .overview

/-! ## Dataset import (modelled atomically: no claim interleaves a dataset
load with other events, so the start and settlement of `loadSampleData` /
`handleFileUpload` are fused into one step taking the response as input) -/

/-- `loadSampleData`: `setLoading(true); setError(null)`, then on a parsed
response store statistics/sample, set `population_size` to the returned row
count, and mark loaded; a thrown error (transport/parse failure) sets the
error message and `apiOnline = false`, leaving dataset state untouched. -/
def loadSampleData (s : DashState) (resp : Except String SampleResp) : DashState :=
  let s0 := { s with loading := true, error := none }
  match resp with
  | .ok r =>
      { s0 with dataStats := some r.statistics, dataSample := r.sample
                config := { s0.config with population_size := r.rows }
                dataLoaded := true, apiOnline := true, loading := false }
  | .error m =>
      { s0 with error := some m, apiOnline := false, loading := false }

/-- The message thrown by `handleFileUpload` for a non-ok response:
`new Error(err.detail || 'Upload failed')` — a missing or empty (falsy)
`detail` falls back to the fixed string. -/
def uploadErrMsg (detail : Option String) : String :=
  match detail with
  | some d => if d = "" then "Upload failed" else d
  | none => "Upload failed"

/-- `handleFileUpload`: `setLoading(true); setError(null)`; on `res.ok` the
same success updates as `loadSampleData`; on a non-ok response, throw
`err.detail || 'Upload failed'` (caught: `setError(err.message)`); on a
transport failure, the thrown message.  Unlike `loadSampleData`, the catch
block does not touch `apiOnline`. -/
def handleFileUpload (s : DashState) (resp : UploadOutcome) : DashState :=
  let s0 := { s with loading := true, error := none }
  match resp with
  | .ok r =>
      { s0 with dataStats := some r.statistics, dataSample := r.sample
                config := { s0.config with population_size := r.rows }
                dataLoaded := true, apiOnline := true, loading := false }
  | .httpErr d =>
      { s0 with error := some (uploadErrMsg d), loading := false }
  | .netErr m =>
      { s0 with error := some m, loading := false }

/-! ## Fetch completions (the continuation after each `await`)

A completion step takes the ghost id of the pending request that settles and
the environment-chosen response; a step for an id that is not pending is a
no-op (a request settles exactly once).  The continuations themselves are
verbatim from the source and consult no token: whichever completion runs
last writes last. -/

/-- Completion of `runSimulation`: map the projections into chart points,
derive `metrics` from the last entry, set `apiOnline`; a thrown error (or the
`TypeError` on an empty `projections` array, whose exact JS message is
abbreviated here) sets the error message and `apiOnline = false`.  `finally`
clears `loading`. -/
def resolveSimulation (s : DashState) (id : Nat)
    (resp : Except String (List Projection)) : DashState :=
  if (s.pendingSim.filter (fun p => p.1 = id)) = [] then s else
  let s0 := { s with pendingSim := s.pendingSim.filter (fun p => p.1 ≠ id) }
  match resp with
  | .ok projs =>
      let s1 := { s0 with data := projs.map (fun (p : Projection) =>
        { name := "Y" ++ toString p.Year, revenue := p.Total_Revenue
          expenditure := p.Total_Expenditure, reserve := p.Reserve_Fund }) }
      match projs.getLast? with
      | some last =>
          let m : Metrics :=
            { reserve := some last.Reserve_Fund
              solvency := some (last.Total_Revenue / last.Total_Expenditure)
              riskCount := last.Risk_Flags.length }
          { s1 with metrics := m, apiOnline := true, loading := false }
      | none =>
          { s1 with error := some "Cannot read properties of undefined"
                    apiOnline := false, loading := false }
  | .error m =>
      { s0 with error := some m, apiOnline := false, loading := false }

/-- Completion of `runMonteCarlo`: `setMcData(await res.json())`; the catch
block sets the fixed message `"Monte Carlo failed"` (the thrown error is
ignored); `finally` clears `mcLoading`.  A failure does not clear a
previously stored `mcData`. -/
def resolveMonteCarlo (s : DashState) (id : Nat)
    (resp : Except Unit McResp) : DashState :=
  if (s.pendingMC.filter (fun p => p.1 = id)) = [] then s else
  let s0 := { s with pendingMC := s.pendingMC.filter (fun p => p.1 ≠ id) }
  match resp with
  | .ok r => { s0 with mcData := some r, mcLoading := false }
  | .error _ => { s0 with error := some "Monte Carlo failed", mcLoading := false }

/-- Completion of `runML`: `setMlData(await res.json())`; catch sets
`"ML failed"`; `finally` clears `mlLoading`. -/
def resolveML (s : DashState) (id : Nat) (resp : Except Unit MlResp) : DashState :=
  if (s.pendingML.filter (fun p => p.1 = id)) = [] then s else
  let s0 := { s with pendingML := s.pendingML.filter (fun p => p.1 ≠ id) }
  match resp with
  | .ok r => { s0 with mlData := some r, mlLoading := false }
  | .error _ => { s0 with error := some "ML failed", mlLoading := false }

/-- Completion of `runReport`: `setReport(await res.json())`; catch sets
`"Report failed"`; `finally` clears `reportLoading`. -/
def resolveReport (s : DashState) (id : Nat)
    (resp : Except Unit ReportResp) : DashState :=
  if (s.pendingReport.filter (fun p => p.1 = id)) = [] then s else
  let s0 := { s with pendingReport := s.pendingReport.filter (fun p => p.1 ≠ id) }
  match resp with
  | .ok r => { s0 with report := some r, reportLoading := false }
  | .error _ => { s0 with error := some "Report failed", reportLoading := false }

/-! ## Named handlers for the config-tab inputs

Each input's `onChange` is `setConfig({ ...config, <field>: v })`: an
unconditional merge of the supplied value into the config state.  The
`min`/`max`/`step` values of the sliders and the option lists of the selects
are attributes of the rendered input elements only; no range or membership
check appears in the state update itself. -/

/-- "Wage Inflation" slider `onChange` (rendered with `min={0.01} max={0.20}`). -/
def setWageInflationCfg (s : DashState) (v : ℚ) : DashState :=
  { s with config := { s.config with wage_inflation := v } }

/-- "Medical Inflation" slider `onChange` (rendered with `min={0.01} max={0.30}`). -/
def setMedicalInflationCfg (s : DashState) (v : ℚ) : DashState :=
  { s with config := { s.config with medical_inflation := v } }

/-- "Investment Return" slider `onChange` (rendered with `min={0.01} max={0.20}`). -/
def setInvestmentReturnCfg (s : DashState) (v : ℚ) : DashState :=
  { s with config := { s.config with investment_return_rate := v } }

/-- "Admin Expense" slider `onChange` (rendered with `min={0.01} max={0.10}`). -/
def setAdminExpenseCfg (s : DashState) (v : ℚ) : DashState :=
  { s with config := { s.config with admin_expense_pct := v } }

/-- "Projection Years" select `onChange` (options 5, 10, 15, 20, 25, 30). -/
def setProjectionYearsCfg (s : DashState) (v : Nat) : DashState :=
  { s with config := { s.config with projection_years := v } }

/-- "Population Size" select `onChange` (options 500 to 10000). -/
def setPopulationSizeCfg (s : DashState) (v : Nat) : DashState :=
  { s with config := { s.config with population_size := v } }

/-! ## The event alphabet

One constructor per user interaction the source renders, plus one completion
event per analysis kind.  Each UI event is guarded by the condition under
which the source actually renders (and enables) the corresponding control,
so that every trace of events corresponds to a performable interaction
sequence. -/

/-- Events: user interactions and network completions. -/
inductive Event where
  /-- A sidebar tab click (subject to the `disabled` gate). -/
  | clickTab (v : TabId)
  /-- The config-tab "Run Full Analysis" button: `onClick={runAll}`. -/
  | clickRunAll
  /-- The import-tab "Proceed to Dashboard" button (rendered only once data
  is loaded): `runSimulation(); setActiveTab('overview')`. -/
  | clickProceed
  /-- The config-tab "Monte Carlo" button:
  `setMcData(null); runMonteCarlo(); setActiveTab('solvency')`. -/
  | clickMonteCarloCfg
  /-- The config-tab "Generate Report" button:
  `setReport(null); runReport(); setActiveTab('reports')`. -/
  | clickGenerateReportCfg
  /-- The solvency-tab "Re-run Monte Carlo" button (rendered only when
  `mcData` is present): `setMcData(null); runMonteCarlo()`. -/
  | clickRerunMC
  /-- The risk-tab "Re-run Analysis" button: `setMlData(null); runML()`. -/
  | clickRerunML
  /-- The reports-tab "Regenerate" button: `setReport(null); runReport()`. -/
  | clickRegenerateReport
  /-- The error banner "Dismiss" button: `setError(null)`. -/
  | dismissError
  /-- Clicking "Use Sample Data" on the import tab, atomically with the
  settlement of the resulting `/sample-data` request. -/
  | loadSample (resp : Except String SampleResp)
  /-- Choosing a file on the import tab, atomically with the settlement of
  the resulting `/upload` request. -/
  | uploadFile (resp : UploadOutcome)
  /-- The "Wage Inflation" slider on the config tab:
  `setConfig({ ...config, wage_inflation: v })`. -/
  | setWageInflation (v : ℚ)
  /-- The "Medical Inflation" slider. -/
  | setMedicalInflation (v : ℚ)
  /-- The "Investment Return" slider. -/
  | setInvestmentReturn (v : ℚ)
  /-- The "Admin Expense" slider. -/
  | setAdminExpense (v : ℚ)
  /-- The "Projection Years" select. -/
  | setProjectionYears (v : Nat)
  /-- The "Population Size" select. -/
  | setPopulationSize (v : Nat)
  /-- Settlement of a pending `/simulate` request. -/
  | resolveSim (id : Nat) (resp : Except String (List Projection))
  /-- Settlement of a pending `/monte-carlo` request. -/
  | resolveMC (id : Nat) (resp : Except Unit McResp)
  /-- Settlement of a pending `/ml/analysis` request. -/
  | resolveMLReq (id : Nat) (resp : Except Unit MlResp)
  /-- Settlement of a pending `/report` request. -/
  | resolveReportReq (id : Nat) (resp : Except Unit ReportResp)

/-- Small-step interpreter: apply one event to the state.  UI events fire
only when their control is rendered and enabled; otherwise the step is a
no-op. -/
def applyEvent (s : DashState) : Event → DashState
  | .clickTab v => clickTab s v
  | .clickRunAll => if s.activeTab = .config then runAll s else s
  | .clickProceed =>
      if s.activeTab = .importTab ∧ s.dataLoaded ∧ s.dataStats.isSome then
        setActiveTab (runSimulation s) .overview
      else s
  | .clickMonteCarloCfg =>
      if s.activeTab = .config then
        setActiveTab (runMonteCarlo { s with mcData := none }) .solvency
      else s
  | .clickGenerateReportCfg =>
      if s.activeTab = .config then
        setActiveTab (runReport { s with report := none }) .reports
      else s
  | .clickRerunMC =>
      if s.activeTab = .solvency ∧ s.mcData.isSome then
        runMonteCarlo { s with mcData := none }
      else s
  | .clickRerunML =>
      if s.activeTab = .risk ∧ s.mlData.isSome then
        runML { s with mlData := none }
      else s
  | .clickRegenerateReport =>
      if s.activeTab = .reports ∧ s.report.isSome then
        runReport { s with report := none }
      else s
  | .dismissError => if s.error.isSome then { s with error := none } else s
  | .loadSample resp => if s.activeTab = .importTab then loadSampleData s resp else s
  | .uploadFile resp => if s.activeTab = .importTab then handleFileUpload s resp else s
  | .setWageInflation v =>
      if s.activeTab = .config then setWageInflationCfg s v else s
  | .setMedicalInflation v =>
      if s.activeTab = .config then setMedicalInflationCfg s v else s
  | .setInvestmentReturn v =>
      if s.activeTab = .config then setInvestmentReturnCfg s v else s
  | .setAdminExpense v =>
      if s.activeTab = .config then setAdminExpenseCfg s v else s
  | .setProjectionYears v =>
      if s.activeTab = .config then setProjectionYearsCfg s v else s
  | .setPopulationSize v =>
      if s.activeTab = .config then setPopulationSizeCfg s v else s
  | .resolveSim id resp => resolveSimulation s id resp
  | .resolveMC id resp => resolveMonteCarlo s id resp
  | .resolveMLReq id resp => resolveML s id resp
  | .resolveReportReq id resp => resolveReport s id resp

/-- Run a sequence of events from a state. -/
def runTrace (s : DashState) (es : List Event) : DashState :=
  es.foldl applyEvent s

/-- A view is *gated* when it is neither the import tab nor the config tab
(spec: every `ViewId` except Import and Config). -/
def gatedView (v : TabId) : Prop :=
  v ≠ .importTab ∧ v ≠ .config

instance (v : TabId) : Decidable (gatedView v) := by
  unfold gatedView; infer_instance

/-! ## Concrete fixtures used by closed witnesses and counterexamples -/

/-- Summary statistics of a small synthetic population. -/
def sampleStats1 : DataStats :=
  { avg_age := 40, avg_wage := 5000, avg_cost := 3000
    gender_split := { Male := 600, Female := 400 } }

/-- A successful 1000-row dataset response. -/
def sampleResp1 : SampleResp :=
  { rows := 1000, statistics := sampleStats1, sample := [] }

/-- A successful 2000-row dataset response (a second, distinct import). -/
def sampleResp2 : SampleResp :=
  { rows := 2000, statistics := sampleStats1, sample := [] }

/-- A Monte Carlo result standing for the settlement of an older request. -/
def mcStale : McResp :=
  { statistics :=
      { mean_reserve := 1, std_reserve := 0, median_reserve := 1
        p5_reserve := 0, p25_reserve := 0, p95_reserve := 2
        prob_deficit := 0, n_simulations := 100 } }

/-- A Monte Carlo result standing for the settlement of a newer request. -/
def mcFresh : McResp :=
  { statistics :=
      { mean_reserve := 9, std_reserve := 0, median_reserve := 9
        p5_reserve := 8, p25_reserve := 8, p95_reserve := 10
        prob_deficit := 0, n_simulations := 200 } }

/-! ## Helper lemmas: frame conditions of the fetch starters -/

theorem runSimulation_activeTab (s : DashState) :
    (runSimulation s).activeTab = s.activeTab := rfl

theorem runMonteCarlo_activeTab (s : DashState) :
    (runMonteCarlo s).activeTab = s.activeTab := rfl

theorem runML_activeTab (s : DashState) :
    (runML s).activeTab = s.activeTab := rfl

theorem runReport_activeTab (s : DashState) :
    (runReport s).activeTab = s.activeTab := rfl

theorem effOverview_activeTab (s : DashState) :
    (effOverview s).activeTab = s.activeTab := by
  unfold effOverview; split <;> rfl

theorem effSolvency_activeTab (s : DashState) :
    (effSolvency s).activeTab = s.activeTab := by
  unfold effSolvency; split <;> rfl

theorem effRisk_activeTab (s : DashState) :
    (effRisk s).activeTab = s.activeTab := by
  unfold effRisk; split <;> rfl

theorem effReports_activeTab (s : DashState) :
    (effReports s).activeTab = s.activeTab := by
  unfold effReports; split <;> rfl

/-- The auto-fetch effect never changes the active tab. -/
theorem autoFetchEffect_activeTab (s : DashState) :
    (autoFetchEffect s).activeTab = s.activeTab := by
  unfold autoFetchEffect
  rw [effReports_activeTab, effRisk_activeTab, effSolvency_activeTab,
    effOverview_activeTab]

/-- The sidebar `disabled` flag holds exactly for a gated view without a
loaded dataset. -/
theorem tabDisabled_iff (s : DashState) (v : TabId) :
    tabDisabled s v = true ↔ gatedView v ∧ s.dataLoaded = false := by
  simp [tabDisabled, gatedView, and_assoc]

/-- C1.  For every gated view `v` (every tab except `'import'` and
`'config'`), clicking `v` with `dataLoaded = false` leaves `activeTab`
unchanged; when `v` is not gated or `dataLoaded = true`, `activeTab`
becomes `v`. -/
theorem setActiveView_gating (s : DashState) (v : TabId) :
    (gatedView v → s.dataLoaded = false → (clickTab s v).activeTab = s.activeTab) ∧
    ((¬ gatedView v ∨ s.dataLoaded = true) → (clickTab s v).activeTab = v) := by
  constructor
  · intro hg hl
    have hd : tabDisabled s v = true := (tabDisabled_iff s v).2 ⟨hg, hl⟩
    simp [clickTab, hd]
  · intro h
    have hd : tabDisabled s v = false := by
      cases hdb : tabDisabled s v with
      | false => rfl
      | true =>
          rcases (tabDisabled_iff s v).1 hdb with ⟨hg, hl⟩
          rcases h with h | h
          · exact absurd hg h
          · rw [h] at hl; cases hl
    rw [clickTab, hd]
    simp only [Bool.false_eq_true, if_false]
    rw [setActiveTab]
    split
    · next heq => exact heq.symm
    · rw [autoFetchEffect_activeTab]

/-- C1 witness: the gated Overview tab clicked from the fresh session (no
dataset loaded) leaves the active view on the import tab, and the ungated
Config tab click moves the view to Config. -/
theorem setActiveView_gating_witness :
    (gatedView TabId.overview ∧ initState.dataLoaded = false ∧
      (clickTab initState TabId.overview).activeTab = initState.activeTab) ∧
    (¬ gatedView TabId.config ∧
      (clickTab initState TabId.config).activeTab = TabId.config) :=
  ⟨⟨by decide, rfl,
      (setActiveView_gating initState TabId.overview).1 (by decide) rfl⟩,
   ⟨by decide,
      (setActiveView_gating initState TabId.config).2 (Or.inl (by decide))⟩⟩

/-- The auto-fetch effect never writes any of the four payload slots and
never touches the dataset flags or the config: it only starts fetches. -/
theorem autoFetchEffect_frame (s : DashState) :
    (autoFetchEffect s).mcData = s.mcData ∧
    (autoFetchEffect s).mlData = s.mlData ∧
    (autoFetchEffect s).report = s.report ∧
    (autoFetchEffect s).data = s.data ∧
    (autoFetchEffect s).dataLoaded = s.dataLoaded ∧
    (autoFetchEffect s).config = s.config := by
  unfold autoFetchEffect effReports effRisk effSolvency effOverview
    runReport runML runMonteCarlo runSimulation
  split_ifs <;> simp_all

/-- The auto-fetch effect only appends to the pending `/simulate` queue. -/
theorem autoFetchEffect_pendingSim_mono (s : DashState) :
    ∀ x ∈ s.pendingSim, x ∈ (autoFetchEffect s).pendingSim := by
  intro x hx
  unfold autoFetchEffect effReports effRisk effSolvency effOverview
    runReport runML runMonteCarlo runSimulation
  split_ifs <;> simp_all

/-- C4.  In every state, `runAll()` clears the Monte Carlo, ML and report
payloads and the projection data (the four analysis caches), immediately
issues a new `/simulate` request carrying the current config, and switches
the active view to Overview. -/
theorem runAll_resets_and_refetches (s : DashState) :
    (runAll s).mcData = none ∧ (runAll s).mlData = none ∧
    (runAll s).report = none ∧ (runAll s).data = [] ∧
    (runAll s).activeTab = TabId.overview ∧
    (s.nextId, s.config) ∈ (runAll s).pendingSim := by
  simp only [runAll, setActiveTab]
  split
  · next heq =>
      refine ⟨rfl, rfl, rfl, rfl, ?_, ?_⟩
      · rw [runSimulation_activeTab]; exact heq.symm
      · simp [runSimulation]
  · have hfr := autoFetchEffect_frame
      { runSimulation { s with mcData := none, mlData := none, report := none, data := [] }
          with activeTab := TabId.overview }
    have hps := autoFetchEffect_pendingSim_mono
      { runSimulation { s with mcData := none, mlData := none, report := none, data := [] }
          with activeTab := TabId.overview }
    refine ⟨?_, ?_, ?_, ?_, ?_, ?_⟩
    · rw [hfr.1]; rfl
    · rw [hfr.2.1]; rfl
    · rw [hfr.2.2.1]; rfl
    · rw [hfr.2.2.2.1]; rfl
    · rw [autoFetchEffect_activeTab]
    · exact hps _ (by simp [runSimulation])

/-- Clicking the Overview tab while the projection payload is non-empty
either leaves the state unchanged (gate rejection, or the tab was already
active) or changes nothing but the active tab: the auto-fetch effect fires
no request because `data.length === 0` fails and no other guard matches the
Overview tab. -/
theorem clickTab_overview_ready (s : DashState) (h : s.data ≠ []) :
    clickTab s TabId.overview = s ∨
    clickTab s TabId.overview = { s with activeTab := TabId.overview } := by
  unfold clickTab
  split
  · exact Or.inl rfl
  · unfold setActiveTab
    split
    · exact Or.inl rfl
    · refine Or.inr ?_
      simp [autoFetchEffect, effOverview, effSolvency, effRisk, effReports, h]

/-- C8.  Activating Overview twice in succession while the Projection cache
is already Ready (`data` non-empty) issues no new `/simulate` request at all
(in particular at most one in total): the ghost request counter and the
pending-request queue are unchanged. -/
theorem overview_twice_no_new_fetch (s : DashState) (h : s.data ≠ []) :
    (clickTab (clickTab s TabId.overview) TabId.overview).simRequests = s.simRequests ∧
    (clickTab (clickTab s TabId.overview) TabId.overview).pendingSim = s.pendingSim := by
  rcases clickTab_overview_ready s h with h1 | h1 <;> rw [h1]
  · rcases clickTab_overview_ready s h with h2 | h2 <;> rw [h2] <;> exact ⟨rfl, rfl⟩
  · rcases clickTab_overview_ready { s with activeTab := TabId.overview } h with h2 | h2 <;>
      rw [h2] <;> exact ⟨rfl, rfl⟩

/-- C8 witness: a loaded session whose projection cache already holds one
chart point; the double Overview activation leaves the request count at its
prior value. -/
def readyOverviewState : DashState :=
  { initState with dataLoaded := true
                   data := [{ name := "Y1", revenue := 4, expenditure := 3, reserve := 1 }]
                   simRequests := 1 }

theorem overview_twice_no_new_fetch_witness :
    readyOverviewState.data ≠ [] ∧
    (clickTab (clickTab readyOverviewState TabId.overview) TabId.overview).simRequests =
      readyOverviewState.simRequests :=
  ⟨by decide, (overview_twice_no_new_fetch readyOverviewState (by decide)).1⟩

/-- C10.  `runAll()` is not guarded by the dataset gate: from the fresh
session (no dataset) the operator can open the always-enabled Config tab and
press "Run Full Analysis", reaching a state with `activeTab = Overview`,
`dataLoaded = false`, cleared caches and a freshly issued `/simulate`
request — while a plain gated tab click can never move an unloaded session
onto Overview. -/
theorem runAll_ungated_overview_reachable :
    ((runTrace initState [Event.clickTab TabId.config, Event.clickRunAll]).activeTab
        = TabId.overview ∧
      (runTrace initState [Event.clickTab TabId.config, Event.clickRunAll]).dataLoaded
        = false ∧
      (runTrace initState [Event.clickTab TabId.config, Event.clickRunAll]).pendingSim
        = [(0, DEFAULT_CONFIG)] ∧
      (runTrace initState [Event.clickTab TabId.config, Event.clickRunAll]).data = [] ∧
      (runTrace initState [Event.clickTab TabId.config, Event.clickRunAll]).mcData = none ∧
      (runTrace initState [Event.clickTab TabId.config, Event.clickRunAll]).mlData = none ∧
      (runTrace initState [Event.clickTab TabId.config, Event.clickRunAll]).report = none) ∧
    (∀ (s : DashState) (v : TabId), s.dataLoaded = false →
      s.activeTab ≠ TabId.overview → (clickTab s v).activeTab ≠ TabId.overview) := by
  constructor
  · exact ⟨rfl, rfl, rfl, rfl, rfl, rfl, rfl⟩
  · intro s v hl ha
    unfold clickTab
    split
    · exact ha
    · next hnd =>
        have hv : v = TabId.importTab ∨ v = TabId.config := by
          by_contra hc
          push_neg at hc
          exact hnd ((tabDisabled_iff s v).2 ⟨⟨hc.1, hc.2⟩, hl⟩)
        rw [setActiveTab]
        split
        · exact ha
        · rw [autoFetchEffect_activeTab]
          rcases hv with h | h <;> rw [h] <;> simp

/-- C7.  Every failing dataset import leaves the prior dataset state
untouched — `dataLoaded`, summary statistics, preview sample and the whole
config (hence `population_size`) keep their previous values — and surfaces
an error: a failing `loadSampleData` surfaces the thrown message, while a
non-ok `/upload` response makes `handleFileUpload` forward the service's
`detail` field verbatim (falling back to a fixed message when `detail` is
missing), and a transport failure surfaces the thrown message. -/
theorem failing_import_preserves_state (s : DashState) (m d : String) (hd : d ≠ "") :
    ((loadSampleData s (.error m)).dataLoaded = s.dataLoaded ∧
      (loadSampleData s (.error m)).dataStats = s.dataStats ∧
      (loadSampleData s (.error m)).dataSample = s.dataSample ∧
      (loadSampleData s (.error m)).config = s.config ∧
      (loadSampleData s (.error m)).error = some m) ∧
    ((handleFileUpload s (.httpErr (some d))).dataLoaded = s.dataLoaded ∧
      (handleFileUpload s (.httpErr (some d))).dataStats = s.dataStats ∧
      (handleFileUpload s (.httpErr (some d))).dataSample = s.dataSample ∧
      (handleFileUpload s (.httpErr (some d))).config = s.config ∧
      (handleFileUpload s (.httpErr (some d))).error = some d) ∧
    ((handleFileUpload s (.httpErr none)).dataLoaded = s.dataLoaded ∧
      (handleFileUpload s (.httpErr none)).config = s.config ∧
      (handleFileUpload s (.httpErr none)).error = some "Upload failed") ∧
    ((handleFileUpload s (.netErr m)).dataLoaded = s.dataLoaded ∧
      (handleFileUpload s (.netErr m)).dataStats = s.dataStats ∧
      (handleFileUpload s (.netErr m)).dataSample = s.dataSample ∧
      (handleFileUpload s (.netErr m)).config = s.config ∧
      (handleFileUpload s (.netErr m)).error = some m) := by
  refine ⟨⟨rfl, rfl, rfl, rfl, rfl⟩, ⟨rfl, rfl, rfl, rfl, ?_⟩,
    ⟨rfl, rfl, rfl⟩, ⟨rfl, rfl, rfl, rfl, rfl⟩⟩
  simp [handleFileUpload, uploadErrMsg, hd]

/-- C7 witness: the spec's scenario B — the service rejects a malformed CSV
with detail "missing column MonthlyWage"; the fresh session stays unloaded
and the detail is surfaced verbatim. -/
theorem failing_import_preserves_state_witness :
    ("missing column MonthlyWage" : String) ≠ "" ∧
    (handleFileUpload initState (.httpErr (some "missing column MonthlyWage"))).dataLoaded
      = initState.dataLoaded ∧
    (handleFileUpload initState (.httpErr (some "missing column MonthlyWage"))).error
      = some "missing column MonthlyWage" :=
  ⟨by decide,
   (failing_import_preserves_state initState "x" "missing column MonthlyWage"
      (by decide)).2.1.1,
   (failing_import_preserves_state initState "x" "missing column MonthlyWage"
      (by decide)).2.1.2.2.2.2⟩

/-- C2 counterexample trace: load a dataset, enter Solvency (issuing Monte
Carlo request 0), go to Config, press the "Monte Carlo" force-refresh button
(issuing requests 1 and, via the tab-switch effect, 2); then request 1
settles with a fresh result and only afterwards the superseded request 0
settles with a stale one. -/
def staleOverwriteTrace : List Event :=
  [Event.loadSample (.ok sampleResp1), Event.clickTab TabId.solvency,
   Event.clickTab TabId.config, Event.clickMonteCarloCfg,
   Event.resolveMC 1 (.ok mcFresh), Event.resolveMC 0 (.ok mcStale)]

/-- C2 counterexample: after the newer request settles the cache holds the
fresh Ready payload, yet when the prior (superseded) fetch settles later its
response is *not* discarded — there is no request token — and it overwrites
the newer payload with stale data. -/
theorem stale_response_overwrites_newer_cex :
    (runTrace initState (staleOverwriteTrace.take 5)).mcData = some mcFresh ∧
    (runTrace initState staleOverwriteTrace).mcData = some mcStale ∧
    mcStale.statistics.n_simulations = 100 ∧ mcFresh.statistics.n_simulations = 200 := by
  exact ⟨rfl, rfl, rfl, rfl⟩

/-- C2 amended: the source has no request token; a Monte Carlo completion
for *any* still-pending request — superseded or not — unconditionally
overwrites `mcData`, so the last completion wins regardless of issue
order. -/
theorem resolveMonteCarlo_last_write_wins (s : DashState) (id : Nat) (r : McResp)
    (h : id ∈ s.pendingMC.map Prod.fst) :
    (resolveMonteCarlo s id (.ok r)).mcData = some r := by
  unfold resolveMonteCarlo
  have hne : s.pendingMC.filter (fun p => p.1 = id) ≠ [] := by
    rcases List.mem_map.1 h with ⟨p, hp, hfst⟩
    intro hnil
    rw [List.filter_eq_nil_iff] at hnil
    exact hnil p hp (by simp [hfst])
  rw [if_neg (by simpa using hne)]

/-- A state with one outstanding Monte Carlo request, for the C2 witness. -/
def mcPendingState : DashState :=
  { initState with pendingMC := [(0, mcRequestBody DEFAULT_CONFIG)], mcLoading := true
                   nextId := 1, mcRequests := 1 }

/-- C2 amended witness: the single pending request settles and its payload
is written to the cache. -/
theorem resolveMonteCarlo_last_write_wins_witness :
    0 ∈ mcPendingState.pendingMC.map Prod.fst ∧
    (resolveMonteCarlo mcPendingState 0 (.ok mcFresh)).mcData = some mcFresh :=
  ⟨by simp [mcPendingState], resolveMonteCarlo_last_write_wins mcPendingState 0 mcFresh
      (by simp [mcPendingState])⟩

/-- C3 counterexample trace: load a dataset, enter Solvency (request 0 goes
out, `mcLoading` becomes true), leave for Config while it is still
outstanding. -/
def doubleFetchTrace : List Event :=
  [Event.loadSample (.ok sampleResp1), Event.clickTab TabId.solvency,
   Event.clickTab TabId.config]

/-- C3 counterexample: with the Monte Carlo status Loading (`mcLoading =
true`, payload absent, one request outstanding), re-entering Solvency is
*not* a no-op — the auto-fetch guard only checks `!mcData` — so a second
fetch is issued and two requests for the same kind are in flight at once. -/
theorem concurrent_fetch_same_kind_cex :
    (runTrace initState doubleFetchTrace).mcLoading = true ∧
    (runTrace initState doubleFetchTrace).mcData = none ∧
    (runTrace initState doubleFetchTrace).mcRequests = 1 ∧
    (runTrace initState doubleFetchTrace).pendingMC.length = 1 ∧
    (applyEvent (runTrace initState doubleFetchTrace)
      (Event.clickTab TabId.solvency)).mcRequests = 2 ∧
    (applyEvent (runTrace initState doubleFetchTrace)
      (Event.clickTab TabId.solvency)).pendingMC.length = 2 := by
  exact ⟨rfl, rfl, rfl, rfl, rfl, rfl⟩

/-- C3 amended: the auto-fetch on entering Solvency is a no-op when the
Monte Carlo *payload* is present (status Ready); when the payload is absent
it fetches regardless of `mcLoading`, so the Loading status does not prevent
a second in-flight request for the same kind. -/
theorem autoFetch_noop_when_payload_present (s : DashState)
    (h : s.mcData.isSome) :
    (clickTab s TabId.solvency).pendingMC = s.pendingMC ∧
    (clickTab s TabId.solvency).mcRequests = s.mcRequests := by
  have hne : s.mcData ≠ none := by
    intro hc; rw [hc] at h; cases h
  unfold clickTab
  split
  · exact ⟨rfl, rfl⟩
  · unfold setActiveTab
    split
    · exact ⟨rfl, rfl⟩
    · have : autoFetchEffect { s with activeTab := TabId.solvency }
          = { s with activeTab := TabId.solvency } := by
        simp [autoFetchEffect, effOverview, effSolvency, effRisk, effReports, hne]
      rw [this]
      exact ⟨rfl, rfl⟩

/-- A loaded session whose Monte Carlo cache already holds a payload, for
the C3 witness. -/
def mcReadyState : DashState :=
  { initState with dataLoaded := true, mcData := some mcStale }

/-- C3 amended witness: entering Solvency with a Ready Monte Carlo payload
issues nothing. -/
theorem autoFetch_noop_when_payload_present_witness :
    mcReadyState.mcData.isSome = true ∧
    (clickTab mcReadyState TabId.solvency).pendingMC = mcReadyState.pendingMC :=
  ⟨rfl, (autoFetch_noop_when_payload_present mcReadyState rfl).1⟩

/-- C5 counterexample trace: load a dataset, enter Solvency, let the Monte
Carlo request settle (cache Ready), then return to Import and successfully
load a *new* dataset. -/
def reloadKeepsCacheTrace : List Event :=
  [Event.loadSample (.ok sampleResp1), Event.clickTab TabId.solvency,
   Event.resolveMC 0 (.ok mcStale), Event.clickTab TabId.importTab,
   Event.loadSample (.ok sampleResp2)]

/-- C5 counterexample: after the second successful dataset load (row count
2000 replaces 1000) the Monte Carlo cache still holds the result computed
against the previous dataset — no cache slot is reset to Idle by a dataset
load. -/
theorem dataset_reload_keeps_caches_cex :
    (runTrace initState reloadKeepsCacheTrace).dataLoaded = true ∧
    (runTrace initState reloadKeepsCacheTrace).config.population_size = 2000 ∧
    (runTrace initState reloadKeepsCacheTrace).mcData = some mcStale := by
  exact ⟨rfl, rfl, rfl⟩

/-- C5 amended: a successful dataset load (sample or upload) replaces the
dataset fields and `population_size` but leaves all four analysis caches
exactly as they were; stale results persist until an explicit re-run. -/
theorem dataset_load_success_preserves_caches (s : DashState) (r : SampleResp) :
    ((loadSampleData s (.ok r)).data = s.data ∧
      (loadSampleData s (.ok r)).mcData = s.mcData ∧
      (loadSampleData s (.ok r)).mlData = s.mlData ∧
      (loadSampleData s (.ok r)).report = s.report ∧
      (loadSampleData s (.ok r)).dataLoaded = true ∧
      (loadSampleData s (.ok r)).config.population_size = r.rows) ∧
    ((handleFileUpload s (.ok r)).data = s.data ∧
      (handleFileUpload s (.ok r)).mcData = s.mcData ∧
      (handleFileUpload s (.ok r)).mlData = s.mlData ∧
      (handleFileUpload s (.ok r)).report = s.report ∧
      (handleFileUpload s (.ok r)).dataLoaded = true ∧
      (handleFileUpload s (.ok r)).config.population_size = r.rows) :=
  ⟨⟨rfl, rfl, rfl, rfl, rfl, rfl⟩, ⟨rfl, rfl, rfl, rfl, rfl, rfl⟩⟩

/-- C6 counterexample trace: open the Config tab and drag the wage-inflation
value to -0.1 (below the slider's rendered minimum of 0.01 and negative,
hence outside every declared range). -/
def invalidWageTrace : List Event :=
  [Event.clickTab TabId.config, Event.setWageInflation (-(1/10))]

/-- C6 counterexample: the update is *not* rejected — the config changes
from the default 0.07 to -0.1 and no validation error is surfaced
(`error` stays null). -/
theorem config_set_no_validation_cex :
    initState.config.wage_inflation = 7/100 ∧
    (runTrace initState invalidWageTrace).config.wage_inflation = -(1/10) ∧
    (runTrace initState invalidWageTrace).error = none ∧
    (-(1/10) : ℚ) ≠ 7/100 ∧ (-(1/10) : ℚ) < 0 := by
  refine ⟨rfl, rfl, rfl, by norm_num, by norm_num⟩

/-- C6 amended: `setConfig({ ...config, wage_inflation: v })` merges the
supplied value unconditionally for every `v`: the config takes the value,
the error slot is untouched, and the remaining fields are preserved.  The
[min, max] bounds and the enumerated choices exist only as attributes of the
rendered input elements, not as checks in the state update. -/
theorem setWageInflation_unvalidated (s : DashState) (v : ℚ) :
    (setWageInflationCfg s v).config.wage_inflation = v ∧
    (setWageInflationCfg s v).error = s.error ∧
    (setWageInflationCfg s v).config.medical_inflation = s.config.medical_inflation ∧
    (setWageInflationCfg s v).config.investment_return_rate
      = s.config.investment_return_rate ∧
    (setWageInflationCfg s v).config.admin_expense_pct = s.config.admin_expense_pct ∧
    (setWageInflationCfg s v).config.projection_years = s.config.projection_years ∧
    (setWageInflationCfg s v).config.population_size = s.config.population_size :=
  ⟨rfl, rfl, rfl, rfl, rfl, rfl, rfl⟩

/-- C9 counterexample trace: with the default config (population 1000),
start a Monte Carlo run from the Config tab. -/
def mcHardcodedTrace : List Event :=
  [Event.clickTab TabId.config, Event.clickMonteCarloCfg]

/-- C9 counterexample: the issued `/monte-carlo` request body carries
`population_size = 500` even though the current ConfigStore holds 1000 —
the body overrides the config's population with a hardcoded literal. -/
theorem monteCarlo_population_hardcoded_cex :
    (runTrace initState mcHardcodedTrace).config.population_size = 1000 ∧
    (runTrace initState mcHardcodedTrace).pendingMC.map
      (fun p => p.2.population_size) = [500] := by
  exact ⟨rfl, rfl⟩

/-- C9 amended: every Monte Carlo fetch builds its request body from the
current ScenarioConfig for the four rate fields and the projection horizon,
but its `population_size` is always the literal 500, regardless of the
config's value. -/
theorem runMonteCarlo_body_fields (s : DashState) :
    (runMonteCarlo s).pendingMC
      = s.pendingMC ++ [(s.nextId, mcRequestBody s.config)] ∧
    (mcRequestBody s.config).wage_inflation = s.config.wage_inflation ∧
    (mcRequestBody s.config).medical_inflation = s.config.medical_inflation ∧
    (mcRequestBody s.config).investment_return_rate
      = s.config.investment_return_rate ∧
    (mcRequestBody s.config).admin_expense_pct = s.config.admin_expense_pct ∧
    (mcRequestBody s.config).projection_years = s.config.projection_years ∧
    (mcRequestBody s.config).population_size = 500 :=
  ⟨rfl, rfl, rfl, rfl, rfl, rfl, rfl⟩

/-- C10 witness: from the fresh unloaded session, a gated Overview click
leaves the session off Overview — only `runAll` reaches it. -/
theorem runAll_ungated_overview_reachable_witness :
    initState.dataLoaded = false ∧ initState.activeTab ≠ TabId.overview ∧
    (clickTab initState TabId.overview).activeTab ≠ TabId.overview :=
  ⟨rfl, by decide,
   runAll_ungated_overview_reachable.2 initState TabId.overview rfl (by decide)⟩
